import Mathlib

/-!
Verification of the `adaptive_sched` Linux kernel module (shallow embedding).

The embedding follows `src/unnamed/part_003` (module version 0.5, the most
complete revision; `src/adaptive_sched.c` v0.4 shares the same logic for the
functions it has).  Machine `u64` arithmetic is modelled on `Nat` with explicit
`% 2^64`; the C `(int)` cast is modelled as two's-complement truncation to
32 bits.  The host kernel's process table (`find_vpid` / `pid_task` /
`set_user_nice`) is modelled as a partial map from pid to nice value.  The
sysfs write buffers are strings parsed by a model of `kstrtoint`.
-/

namespace AdaptiveSched

/-- Modulus of `u64` arithmetic. -/
def M64 : Nat := 2 ^ 64

/-- Wrapping `u64` subtraction `a - b`. -/
def wsub (a b : Nat) : Nat := (a % M64 + M64 - b % M64) % M64

/-- Wrapping `u64` multiplication `a * b`. -/
def wmul (a b : Nat) : Nat := (a * b) % M64

/-- The C cast `(int)x` of a `u64` value: truncate to 32 bits, two's complement. -/
def toInt32 (x : Nat) : Int :=
  if x % 2 ^ 32 < 2 ^ 31 then ((x % 2 ^ 32 : Nat) : Int)
  else ((x % 2 ^ 32 : Nat) : Int) - 2 ^ 32

/-- One core's cumulative time-in-state counters, as read from
`kcpustat_cpu(cpu)` in `get_cpu_load` (part_003 lines 87-96). -/
structure CpuStat where
  user : Nat
  nice : Nat
  system : Nat
  idle : Nat
  iowait : Nat
  irq : Nat
  softirq : Nat
  steal : Nat

/-- The per-CPU baseline arrays `prev_idle[NR_CPUS]` / `prev_total[NR_CPUS]`
(part_003 lines 44-45).  `NR_CPUS` is a compile-time constant, kept here as the
parameter `n`; indexing is by `Fin n`, so an out-of-bounds access is impossible
by construction and the `cpu >= NR_CPUS` guard of `get_cpu_load` is what makes
the function total. -/
structure SamplerState (n : Nat) where
  prev_idle : Fin n → Nat
  prev_total : Fin n → Nat

/-- `idle_all = idle + iowait` (u64 addition), part_003 line 98. -/
def statIdleAll (k : CpuStat) : Nat := (k.idle + k.iowait) % M64

/-- `total = user + nice + system + idle_all + irq + softirq + steal`
(u64 addition), part_003 line 99. -/
def statTotal (k : CpuStat) : Nat :=
  (k.user + k.nice + k.system + statIdleAll k + k.irq + k.softirq + k.steal) % M64

/-- `get_cpu_load` (part_003 lines 77-118).  Pure state-passing version: takes
the counters `k` read for `cpu` and the baseline arrays, returns the `int`
result and the updated arrays.  Mirrors the source exactly: the
`cpu >= NR_CPUS` guard, the `prev_total[cpu] == 0` first-sample branch, the
baseline update, the `diff_total == 0` branch and the final
`(int)(((diff_total - diff_idle) * 100) / diff_total)` in `u64` arithmetic. -/
def get_cpu_load (n : Nat) (cpu : Nat) (k : CpuStat) (st : SamplerState n) :
    Int × SamplerState n :=
  if h : cpu < n then
    let i : Fin n := ⟨cpu, h⟩
    let idle_all := statIdleAll k
    let total := statTotal k
    if st.prev_total i = 0 then
      (0, { prev_total := Function.update st.prev_total i total,
            prev_idle := Function.update st.prev_idle i idle_all })
    else
      let diff_total := wsub total (st.prev_total i)
      let diff_idle := wsub idle_all (st.prev_idle i)
      let st' : SamplerState n :=
        { prev_total := Function.update st.prev_total i total,
          prev_idle := Function.update st.prev_idle i idle_all }
      if diff_total = 0 then (0, st')
      else (toInt32 (wmul (wsub diff_total diff_idle) 100 / diff_total), st')
  else (0, st)

/-- The clamp applied by `load_work_func` to each per-core load before
aggregation (part_003 lines 309-312): `if (load < 0) load = 0; if (load > 100)
load = 100;`. -/
def clampLoad (l : Int) : Int :=
  if l < 0 then 0 else if l > 100 then 100 else l

/-- The `for_each_online_cpu` loop body of `load_work_func` (part_003 lines
306-319), with the accumulators `sum`, `cnt`, `local_max` made explicit.
`stats` models the read-only `kcpustat_cpu` environment for the cycle. -/
def load_work_loop (n : Nat) (stats : Nat → CpuStat) :
    List Nat → SamplerState n → Int → Int → Int → Int × Int × Int × SamplerState n
  | [], st, s, cnt, mx => (s, cnt, mx, st)
  | cpu :: rest, st, s, cnt, mx =>
    let p := get_cpu_load n cpu (stats cpu) st
    let load := clampLoad p.1
    load_work_loop n stats rest p.2 (s + load) (cnt + 1) (if mx < load then load else mx)

/-- `load_work_func` (part_003 lines 299-332): runs the per-core loop over the
list of online cpus and publishes `(current_load, max_load)` together with the
updated baseline arrays.  `current_load = cnt > 0 ? sum / cnt : 0`,
`max_load = local_max`.  The trailing `schedule_delayed_work` re-arm is the
periodic-scheduler side effect, not part of the published values. -/
def load_work_func (n : Nat) (stats : Nat → CpuStat) (cpus : List Nat)
    (st : SamplerState n) : Int × Int × SamplerState n :=
  let r := load_work_loop n stats cpus st 0 0 0
  (if 0 < r.2.1 then r.1 / r.2.1 else 0, r.2.2.1, r.2.2.2)

/-- Spec-side comparator for the aggregation claim: the sequence of per-core
loads of one cycle, each clamped to `[0,100]`, sampling the cores in order and
threading the baseline state exactly as the cycle does.  The spec's published
values are `floor(sum/count)` (or 0) and the maximum (or 0) over this list. -/
def sampleLoads (n : Nat) (stats : Nat → CpuStat) :
    List Nat → SamplerState n → List Int
  | [], _ => []
  | cpu :: rest, st =>
    let p := get_cpu_load n cpu (stats cpu) st
    clampLoad p.1 :: sampleLoads n stats rest p.2

/-- `boost_to_nice` (part_003 lines 57-67): a `switch` whose `default:` arm is
shared with `case 3`. -/
def boost_to_nice (boost : Int) : Int :=
  if boost = 0 then 0
  else if boost = 1 then -2
  else if boost = 2 then -5
  else -10

/-- The module's control state: the globals `boost_level` and `target_pid`
(part_003 lines 29, 38) plus the host process table, modelled as a partial map
from pid to the nice value last applied (`find_vpid`/`pid_task` resolution
succeeds exactly on pids in the map's domain; `set_user_nice` updates it). -/
structure CtrlState where
  boost_level : Int
  target_pid : Int
  procs : Int → Option Int

/-- `apply_boost_to_target` (part_003 lines 127-158): no-op when
`target_pid <= 0` or when the pid does not resolve; otherwise applies
`boost_to_nice(boost_level)` to the resolved process. -/
def apply_boost_to_target (st : CtrlState) : CtrlState :=
  if st.target_pid ≤ 0 then st
  else
    match st.procs st.target_pid with
    | none => st
    | some _ =>
      { st with procs := Function.update st.procs st.target_pid
                  (some (boost_to_nice st.boost_level)) }

/-- Accumulate a decimal digit string into a value (the digit loop of the
kernel's `_parse_integer`). -/
def digitsToNat : List Char → Nat → Nat
  | [], acc => acc
  | c :: cs, acc => digitsToNat cs (acc * 10 + (c.toNat - 48))

/-- Model of the kernel's `kstrtoint(buf, 10, &val)`: an optional `-` sign
(`kstrtoll`), then an optional `+` (`_kstrtoull`), then a nonempty run of
decimal digits, then optionally one trailing newline and nothing else; the
value must fit in a 32-bit signed `int`, otherwise the call fails (`-ERANGE`).
Returns `none` exactly when the C call returns a nonzero error code. -/
def kstrtoint (buf : String) : Option Int :=
  let p1 := match buf.data with
    | '-' :: rest => (true, rest)
    | l => (false, l)
  let s2 := match p1.2 with
    | '+' :: rest => rest
    | l => l
  let digits := s2.takeWhile (fun c => c.isDigit)
  let rest := s2.dropWhile (fun c => c.isDigit)
  if digits = [] then none
  else if rest = [] ∨ rest = ['\n'] then
    let v : Nat := digitsToNat digits 0
    if p1.1 then
      if v ≤ 2 ^ 31 then some (-(v : Int)) else none
    else
      if v < 2 ^ 31 then some ((v : Int)) else none
  else none

/-- `boost_store` (part_003 lines 173-193): on a successful parse, clamp to
`[0,3]`, store, and synchronously call `apply_boost_to_target`; on a failed
parse leave the state alone.  Either way return `count`. -/
def boost_store (buf : String) (count : Nat) (st : CtrlState) : CtrlState × Nat :=
  match kstrtoint buf with
  | some v0 =>
    let v1 := if v0 < 0 then 0 else v0
    let val := if v1 > 3 then 3 else v1
    (apply_boost_to_target { st with boost_level := val }, count)
  | none => (st, count)

/-- `boost_show` (part_003 lines 166-171): `scnprintf(buf, PAGE_SIZE, "%d\n",
boost_level)`. -/
def boost_show (st : CtrlState) : String :=
  toString st.boost_level ++ "\n"

/-- `target_pid_store` (part_003 lines 243-264): on a successful parse, replace
a negative value by 0, store, and call `apply_boost_to_target` only when the
stored pid is positive; on a failed parse leave the state alone.  Either way
return `count`. -/
def target_pid_store (buf : String) (count : Nat) (st : CtrlState) : CtrlState × Nat :=
  match kstrtoint buf with
  | some p0 =>
    let pid_val := if p0 < 0 then 0 else p0
    let st' := { st with target_pid := pid_val }
    (if st'.target_pid > 0 then apply_boost_to_target st' else st', count)
  | none => (st, count)

/-- Concrete counters for the wraparound analysis of `get_cpu_load`:
`idle_all = 401`, `total = 900`. -/
def wrapStat : CpuStat := ⟨499, 0, 0, 400, 1, 0, 0, 0⟩

/-- A one-core baseline state with `prev_total = 1000`, `prev_idle = 500`:
larger than the fresh counters of `wrapStat`, i.e. a wrapped/reset counter. -/
def wrapState : SamplerState 1 := ⟨fun _ => 500, fun _ => 1000⟩

/-- A concrete control state for the invalid-write analysis. -/
def invState : CtrlState := ⟨0, 0, fun _ => none⟩

/-- Counters of the spec's Scenario A: `user = 100`, `idle = 800`, others 0. -/
def firstStat : CpuStat := ⟨100, 0, 0, 800, 0, 0, 0, 0⟩

/-- A two-core state with no baseline for any core. -/
def firstState : SamplerState 2 := ⟨fun _ => 0, fun _ => 0⟩

/-- A constant per-core counter environment for the aggregation analysis. -/
def aggStats : Nat → CpuStat := fun _ => ⟨100, 0, 0, 800, 0, 0, 0, 0⟩

/-- A one-core state with no baseline, for the aggregation analysis. -/
def aggState : SamplerState 1 := ⟨fun _ => 0, fun _ => 0⟩

/-- A concrete control state for the round-trip analysis of `boost_level`. -/
def rtState : CtrlState := ⟨3, 0, fun _ => none⟩

/-- A concrete control state, with one live process, for the `target_pid`
write analysis. -/
def pidState : CtrlState := ⟨2, 0, fun p => if p = 7 then some 0 else none⟩

/-- Arbitrary concrete counters for the out-of-range-cpu analysis. -/
def oobStat : CpuStat := ⟨1, 2, 3, 4, 5, 6, 7, 8⟩

/-- A four-core state with nonzero baselines, for the out-of-range analysis. -/
def oobState : SamplerState 4 := ⟨fun _ => 9, fun _ => 9⟩

/-- A control state in which pid 42 was previously targeted and got nice -5. -/
def frameState : CtrlState := ⟨1, 42, fun p => if p = 42 then some (-5) else none⟩

/-!  Helper lemmas. -/

theorem M64_pos : 0 < M64 := by norm_num [M64]

theorem statTotal_lt_M64 (k : CpuStat) : statTotal k < M64 := by
  unfold statTotal
  exact Nat.mod_lt _ M64_pos

theorem wsub_of_lt (a b : Nat) (ha : a < M64) (hb : b < M64) (hab : a < b) :
    wsub a b = a + M64 - b := by
  unfold wsub
  rw [Nat.mod_eq_of_lt ha, Nat.mod_eq_of_lt hb, Nat.mod_eq_of_lt (by omega)]

theorem apply_boost_to_target_boost_level (st : CtrlState) :
    (apply_boost_to_target st).boost_level = st.boost_level := by
  unfold apply_boost_to_target
  split
  · rfl
  · split <;> rfl

theorem apply_boost_to_target_target_pid (st : CtrlState) :
    (apply_boost_to_target st).target_pid = st.target_pid := by
  unfold apply_boost_to_target
  split
  · rfl
  · split <;> rfl

/-- C1 counterexample: with baseline `(prev_total, prev_idle) = (1000, 500)` and
fresh counters `(total, idle_all) = (900, 401)` — both smaller than the baseline,
i.e. a wrapped or reset counter — `get_cpu_load` returns 1, not 0: the unsigned
`u64` differences wrap to huge values and the computed quotient is 1. -/
theorem get_cpu_load_wrap_counterexample :
    wrapState.prev_total ⟨0, Nat.one_pos⟩ ≠ 0 ∧
    statTotal wrapStat < wrapState.prev_total ⟨0, Nat.one_pos⟩ ∧
    statIdleAll wrapStat < wrapState.prev_idle ⟨0, Nat.one_pos⟩ ∧
    (get_cpu_load 1 0 wrapStat wrapState).1 = 1 ∧
    (get_cpu_load 1 0 wrapStat wrapState).1 ≠ 0 := by decide

/-- C1 (amended): if a baseline exists and the fresh total is smaller than the
stored baseline total, the sampler does store the fresh `(total, idle_all)` as
the new baseline, but it does not return 0: `diff_total` wraps to the huge
nonzero value `total + 2^64 - prev_total`, so the `diff_total == 0` early
return is not taken and the result is the 32-bit cast of the quotient of the
wrapped differences, which can be a nonzero garbage percentage. -/
theorem get_cpu_load_wrap_amended (n cpu : Nat) (k : CpuStat) (st : SamplerState n)
    (h : cpu < n) (hprev : st.prev_total ⟨cpu, h⟩ ≠ 0)
    (hlt : statTotal k < st.prev_total ⟨cpu, h⟩)
    (hub : st.prev_total ⟨cpu, h⟩ < M64) :
    (get_cpu_load n cpu k st).2.prev_total ⟨cpu, h⟩ = statTotal k ∧
    (get_cpu_load n cpu k st).2.prev_idle ⟨cpu, h⟩ = statIdleAll k ∧
    (0 < wsub (statTotal k) (st.prev_total ⟨cpu, h⟩) ∧
      wsub (statTotal k) (st.prev_total ⟨cpu, h⟩) =
        statTotal k + M64 - st.prev_total ⟨cpu, h⟩) ∧
    (get_cpu_load n cpu k st).1 =
      toInt32 (wmul (wsub (wsub (statTotal k) (st.prev_total ⟨cpu, h⟩))
          (wsub (statIdleAll k) (st.prev_idle ⟨cpu, h⟩))) 100 /
        wsub (statTotal k) (st.prev_total ⟨cpu, h⟩)) := by
  have htot : statTotal k < M64 := statTotal_lt_M64 k
  have hdt : wsub (statTotal k) (st.prev_total ⟨cpu, h⟩)
      = statTotal k + M64 - st.prev_total ⟨cpu, h⟩ :=
    wsub_of_lt _ _ htot hub hlt
  have hdt0 : wsub (statTotal k) (st.prev_total ⟨cpu, h⟩) ≠ 0 := by
    rw [hdt]; omega
  refine ⟨?_, ?_, ⟨by rw [hdt]; omega, hdt⟩, ?_⟩ <;>
    simp [get_cpu_load, h, hprev, hdt0]

/-- C1 witness: the amended theorem applied at the concrete wraparound input. -/
theorem get_cpu_load_wrap_amended_witness :
    statTotal wrapStat < wrapState.prev_total ⟨0, Nat.one_pos⟩ ∧
    (get_cpu_load 1 0 wrapStat wrapState).2.prev_total ⟨0, Nat.one_pos⟩ =
      statTotal wrapStat :=
  ⟨by decide,
   (get_cpu_load_wrap_amended 1 0 wrapStat wrapState Nat.one_pos (by decide)
     (by decide) (by decide)).1⟩

/-- C2 counterexample: `boost_to_nice` does not clamp, its `switch` falls into
the `default:` arm for negative levels, yielding -10 (the aggressive, level-3
hint) instead of the level-0 neutral hint 0. -/
theorem boost_to_nice_clamp_counterexample :
    boost_to_nice (-1) = -10 ∧ boost_to_nice 0 = 0 ∧
    boost_to_nice (-1) ≠ boost_to_nice 0 := by decide

/-- C2 (amended): there is no clamp to `[0,3]`; every input below 0 or above 3
falls into the `default:` arm and yields the same priority hint as level 3
(the aggressive hint, nice -10).  The table on `[0,3]` itself is
`{0 -> 0, 1 -> -2, 2 -> -5, 3 -> -10}`. -/
theorem boost_to_nice_out_of_range (b : Int) (hb : b < 0 ∨ 3 < b) :
    boost_to_nice b = boost_to_nice 3 ∧ boost_to_nice 3 = -10 := by
  have h3 : boost_to_nice 3 = -10 := by decide
  refine ⟨?_, h3⟩
  rw [h3]
  unfold boost_to_nice
  rw [if_neg (show ¬b = 0 by omega), if_neg (show ¬b = 1 by omega),
    if_neg (show ¬b = 2 by omega)]

/-- C2 witness: the amended theorem applied at level -7. -/
theorem boost_to_nice_out_of_range_witness :
    ((-7 : Int) < 0 ∨ (3 : Int) < -7) ∧
    (boost_to_nice (-7) = boost_to_nice 3 ∧ boost_to_nice 3 = -10) :=
  ⟨Or.inl (by decide), boost_to_nice_out_of_range (-7) (Or.inl (by decide))⟩

/-- C3: a write whose buffer `kstrtoint` rejects leaves the stored value
unchanged (for `boost_level` and for `target_pid` alike) and still returns
`count`, i.e. reports the full input length as consumed — success. -/
theorem store_invalid_input_keeps_state (s : String) (count : Nat) (st : CtrlState)
    (hs : kstrtoint s = none) :
    boost_store s count st = (st, count) ∧ target_pid_store s count st = (st, count) := by
  constructor <;> simp [boost_store, target_pid_store, hs]

/-- C3 witness: the non-numeric write "hello" at a concrete state. -/
theorem store_invalid_input_witness :
    kstrtoint "hello" = none ∧ boost_store "hello" 5 invState = (invState, 5) :=
  ⟨by decide, (store_invalid_input_keeps_state "hello" 5 invState (by decide)).1⟩

/-- C4: on the first-ever sample of a core (no baseline, `prev_total[cpu] == 0`)
`get_cpu_load` returns 0 and stores the observed `(total, idle_all)` as the
baseline, whatever the magnitude of the counters. -/
theorem get_cpu_load_first_sample (n cpu : Nat) (k : CpuStat) (st : SamplerState n)
    (h : cpu < n) (h0 : st.prev_total ⟨cpu, h⟩ = 0) :
    (get_cpu_load n cpu k st).1 = 0 ∧
    (get_cpu_load n cpu k st).2.prev_total ⟨cpu, h⟩ = statTotal k ∧
    (get_cpu_load n cpu k st).2.prev_idle ⟨cpu, h⟩ = statIdleAll k := by
  simp [get_cpu_load, h, h0]

/-- C4 witness: the spec's Scenario A counters on a fresh core. -/
theorem get_cpu_load_first_sample_witness :
    firstState.prev_total ⟨1, Nat.one_lt_two⟩ = 0 ∧
    (get_cpu_load 2 1 firstStat firstState).1 = 0 ∧
    (get_cpu_load 2 1 firstStat firstState).2.prev_total ⟨1, Nat.one_lt_two⟩ =
      statTotal firstStat :=
  ⟨by decide,
   (get_cpu_load_first_sample 2 1 firstStat firstState Nat.one_lt_two (by decide)).1,
   (get_cpu_load_first_sample 2 1 firstStat firstState Nat.one_lt_two (by decide)).2.1⟩

/-- C9: for a cpu index at or beyond the compile-time maximum, `get_cpu_load`
returns 0 and leaves the baseline arrays untouched: the guard fires before any
array access, so sampling never indexes `prev_idle`/`prev_total` out of
bounds (in the embedding the arrays are `Fin n`-indexed, so an access without
the guard's bound would not even typecheck). -/
theorem get_cpu_load_out_of_range (n cpu : Nat) (k : CpuStat) (st : SamplerState n)
    (h : n ≤ cpu) : get_cpu_load n cpu k st = (0, st) := by
  simp [get_cpu_load, Nat.not_lt.mpr h]

/-- C9 witness: cpu 4 of a 4-core table. -/
theorem get_cpu_load_out_of_range_witness :
    4 ≤ 4 ∧ get_cpu_load 4 4 oobStat oobState = (0, oobState) :=
  ⟨le_refl 4, get_cpu_load_out_of_range 4 4 oobStat oobState (le_refl 4)⟩

/-- C10: a write of "0" to `target_pid` stores 0 and does not invoke the
target controller: the host process table is left exactly as it was, so the
previously targeted process keeps the nice value last applied to it; the
stored `boost_level` is also unchanged and the write returns `count`. -/
theorem target_pid_store_zero_frame (s : String) (count : Nat) (st : CtrlState)
    (h0 : kstrtoint s = some 0) :
    (target_pid_store s count st).1.procs = st.procs ∧
    (target_pid_store s count st).1.target_pid = 0 ∧
    (target_pid_store s count st).1.boost_level = st.boost_level ∧
    (target_pid_store s count st).2 = count := by
  simp [target_pid_store, h0]

/-- C10 witness: clearing the target leaves pid 42's recorded nice value -5
in place. -/
theorem target_pid_store_zero_frame_witness :
    kstrtoint "0" = some 0 ∧
    (target_pid_store "0" 1 frameState).1.procs = frameState.procs ∧
    (target_pid_store "0" 1 frameState).1.target_pid = 0 :=
  ⟨by decide, (target_pid_store_zero_frame "0" 1 frameState (by decide)).1,
   (target_pid_store_zero_frame "0" 1 frameState (by decide)).2.1⟩

theorem clampLoad_nonneg (l : Int) : 0 ≤ clampLoad l := by
  unfold clampLoad; split_ifs <;> omega

theorem clampLoad_le_100 (l : Int) : clampLoad l ≤ 100 := by
  unfold clampLoad; split_ifs <;> omega

theorem load_work_loop_sum (n : Nat) (stats : Nat → CpuStat) (cpus : List Nat)
    (st : SamplerState n) (s cnt mx : Int) :
    (load_work_loop n stats cpus st s cnt mx).1 =
      s + (sampleLoads n stats cpus st).sum := by
  induction cpus generalizing st s cnt mx with
  | nil => simp [load_work_loop, sampleLoads]
  | cons c rest ih =>
    simp only [load_work_loop, sampleLoads, List.sum_cons]
    rw [ih]
    ring

theorem load_work_loop_cnt (n : Nat) (stats : Nat → CpuStat) (cpus : List Nat)
    (st : SamplerState n) (s cnt mx : Int) :
    (load_work_loop n stats cpus st s cnt mx).2.1 =
      cnt + ((sampleLoads n stats cpus st).length : Int) := by
  induction cpus generalizing st s cnt mx with
  | nil => simp [load_work_loop, sampleLoads]
  | cons c rest ih =>
    simp only [load_work_loop, sampleLoads, List.length_cons]
    rw [ih]
    push_cast
    ring

theorem load_work_loop_max (n : Nat) (stats : Nat → CpuStat) (cpus : List Nat)
    (st : SamplerState n) (s cnt mx : Int) (hmx : 0 ≤ mx) :
    (load_work_loop n stats cpus st s cnt mx).2.2.1 =
      max mx ((sampleLoads n stats cpus st).foldr max 0) := by
  induction cpus generalizing st s cnt mx with
  | nil =>
    simp only [load_work_loop, sampleLoads, List.foldr_nil]
    exact (max_eq_left hmx).symm
  | cons c rest ih =>
    simp only [load_work_loop, sampleLoads, List.foldr_cons]
    have hstep : (if mx < clampLoad (get_cpu_load n c (stats c) st).1
          then clampLoad (get_cpu_load n c (stats c) st).1 else mx)
        = max mx (clampLoad (get_cpu_load n c (stats c) st).1) := by
      rcases lt_or_le mx (clampLoad (get_cpu_load n c (stats c) st).1) with hc | hc
      · rw [if_pos hc, max_eq_right hc.le]
      · rw [if_neg (not_lt.mpr hc), max_eq_left hc]
    rw [hstep, ih _ _ _ _ (le_trans hmx (le_max_left _ _)), max_assoc]

theorem sampleLoads_mem_bounds (n : Nat) (stats : Nat → CpuStat) (cpus : List Nat)
    (st : SamplerState n) : ∀ l ∈ sampleLoads n stats cpus st, 0 ≤ l ∧ l ≤ 100 := by
  induction cpus generalizing st with
  | nil => intro l hl; simp [sampleLoads] at hl
  | cons c rest ih =>
    intro l hl
    simp only [sampleLoads, List.mem_cons] at hl
    rcases hl with rfl | hl
    · exact ⟨clampLoad_nonneg _, clampLoad_le_100 _⟩
    · exact ih _ l hl

theorem foldr_max_nonneg (ls : List Int) : 0 ≤ ls.foldr max 0 := by
  induction ls with
  | nil => simp
  | cons x xs ih => exact le_trans ih (by simp [List.foldr_cons, le_max_right])

/-- C5: one cycle of `load_work_func` publishes exactly the spec's aggregates
over the per-core loads of the cycle: the average is `floor(sum / count)` when
the online-cpu count is positive and 0 otherwise, the maximum is the maximum
per-core load (0 when there are no cpus), and every per-core load entering the
aggregation is clamped to `[0,100]`. -/
theorem load_work_func_publishes (n : Nat) (stats : Nat → CpuStat) (cpus : List Nat)
    (st : SamplerState n) :
    (load_work_func n stats cpus st).1 =
      (if 0 < (sampleLoads n stats cpus st).length then
        (sampleLoads n stats cpus st).sum / ((sampleLoads n stats cpus st).length : Int)
      else 0) ∧
    (load_work_func n stats cpus st).2.1 =
      (sampleLoads n stats cpus st).foldr max 0 ∧
    ∀ l ∈ sampleLoads n stats cpus st, 0 ≤ l ∧ l ≤ 100 := by
  refine ⟨?_, ?_, sampleLoads_mem_bounds n stats cpus st⟩
  · simp only [load_work_func]
    rw [load_work_loop_sum, load_work_loop_cnt]
    simp only [zero_add, Int.natCast_pos]
  · simp only [load_work_func]
    rw [load_work_loop_max n stats cpus st 0 0 0 (le_refl 0)]
    exact max_eq_right (foldr_max_nonneg _)

/-- C5 witness: the published averages of a concrete one-core cycle. -/
theorem load_work_func_publishes_witness :
    (load_work_func 1 aggStats [0] aggState).1 =
      (if 0 < (sampleLoads 1 aggStats [0] aggState).length then
        (sampleLoads 1 aggStats [0] aggState).sum /
          ((sampleLoads 1 aggStats [0] aggState).length : Int)
      else 0) ∧
    (load_work_func 1 aggStats [0] aggState).2.1 =
      (sampleLoads 1 aggStats [0] aggState).foldr max 0 :=
  ⟨(load_work_func_publishes 1 aggStats [0] aggState).1,
   (load_work_func_publishes 1 aggStats [0] aggState).2.1⟩

/-- C6: a numeric write `v` to `boost_level` stores `clamp(v, 0, 3)` =
`max 0 (min v 3)`, a subsequent `boost_show` read returns that stored value
formatted as a decimal integer (newline-terminated, as all four attributes
are), and the write reports `count`. -/
theorem boost_store_round_trip (s : String) (v : Int) (count : Nat) (st : CtrlState)
    (hv : kstrtoint s = some v) :
    (boost_store s count st).1.boost_level = max 0 (min v 3) ∧
    boost_show (boost_store s count st).1 = toString (max 0 (min v 3)) ++ "\n" ∧
    (boost_store s count st).2 = count := by
  have hb : (boost_store s count st).1.boost_level = max 0 (min v 3) := by
    simp only [boost_store, hv]
    rw [apply_boost_to_target_boost_level]
    show (if (if v < 0 then 0 else v) > 3 then 3 else if v < 0 then 0 else v)
        = max 0 (min v 3)
    split_ifs <;> omega
  refine ⟨hb, ?_, ?_⟩
  · unfold boost_show
    rw [hb]
  · simp [boost_store, hv]

/-- C6 witness: write "2", read back "2" followed by a newline. -/
theorem boost_store_round_trip_witness :
    kstrtoint "2" = some 2 ∧
    (boost_store "2" 2 rtState).1.boost_level = max 0 (min 2 3) ∧
    boost_show (boost_store "2" 2 rtState).1 = toString (max 0 (min (2 : Int) 3)) ++ "\n" :=
  ⟨by decide, (boost_store_round_trip "2" 2 2 rtState (by decide)).1,
   (boost_store_round_trip "2" 2 2 rtState (by decide)).2.1⟩

/-- C7: a numeric write `p` to `target_pid` stores 0 when `p < 0`, clears the
target when `p = 0`, and when `p > 0` stores `p` and synchronously invokes the
target controller (`apply_boost_to_target`) on the updated state, whose
`boost_level` is the current one. -/
theorem target_pid_store_cases (s : String) (v : Int) (count : Nat) (st : CtrlState)
    (hv : kstrtoint s = some v) :
    (v < 0 → target_pid_store s count st = ({ st with target_pid := 0 }, count)) ∧
    (v = 0 → target_pid_store s count st = ({ st with target_pid := 0 }, count)) ∧
    (0 < v → target_pid_store s count st =
        (apply_boost_to_target { st with target_pid := v }, count) ∧
      (target_pid_store s count st).1.target_pid = v ∧
      (target_pid_store s count st).1.boost_level = st.boost_level) := by
  refine ⟨?_, ?_, ?_⟩
  · intro hneg
    have hp : (if v < 0 then (0 : Int) else v) = 0 := if_pos hneg
    simp [target_pid_store, hv, hp]
  · intro hzero
    subst hzero
    simp [target_pid_store, hv]
  · intro hpos
    have hp : (if v < 0 then (0 : Int) else v) = v := if_neg (by omega)
    have heq : target_pid_store s count st =
        (apply_boost_to_target { st with target_pid := v }, count) := by
      simp [target_pid_store, hv, hp, hpos]
    refine ⟨heq, ?_, ?_⟩
    · rw [heq]
      exact apply_boost_to_target_target_pid _
    · rw [heq]
      exact apply_boost_to_target_boost_level _

/-- C7 witness: writing pid 7 (a live process in the concrete state) stores 7
and runs the controller on the updated state. -/
theorem target_pid_store_cases_witness :
    kstrtoint "7" = some 7 ∧
    target_pid_store "7" 1 pidState =
      (apply_boost_to_target { pidState with target_pid := 7 }, 1) ∧
    (target_pid_store "7" 1 pidState).1.target_pid = 7 :=
  ⟨by decide, ((target_pid_store_cases "7" 7 1 pidState (by decide)).2.2 (by decide)).1,
   ((target_pid_store_cases "7" 7 1 pidState (by decide)).2.2 (by decide)).2.1⟩

end AdaptiveSched
